import Mathlib

/-!
Verification development for the outfit-analysis upload-and-poll flow of the
repository (file src/app/home.tsx, function handleRunPipeline, lines 178-385).

The flow submits one image upload, extracts a job identifier from the reply,
and then polls the job-status endpoint once per second, at most `maxAttempts`
times, until a terminal status is observed.  The embedding below translates the
handler into a pure function: network responses become explicit inputs (one
upload outcome and one status response per issued status request), the React
state setters become updates of an explicit `UIState` record, a thrown JS
`Error` becomes `Except.error` carrying a `Thrown` value whose message string
is the one the source builds, and the `while (attempts < maxAttempts)` loop
becomes structural recursion on the remaining-iterations fuel
`maxAttempts - attempts`, threading the `attempts` counter so that request
indices and counts match the source.  Wall-clock waiting (the one-second sleep
between checks and the request timeouts) is not executed; the timeout constants
of the source are recorded as definitions.
-/

/-- The opaque results payload the service attaches to a completed job.  The
handler reads only two fields: `results.detections` (an object whose entries it
summarises; `|| \x7b\x7d` makes a missing field the empty object, modelled by
`Option` with default `[]`) and `results.items_classified` (`|| 0`, modelled by
`Option` with default `0`).  Lines 331-341 of src/app/home.tsx. -/
structure Results where
  detections : Option (List (String × Int))
  items_classified : Option Nat
  deriving DecidableEq

/-- Outcome of one status request `GET /job/jobId` as the handler observes it
(lines 306-327 of src/app/home.tsx):
* `reqFailure msg`: the awaited promise rejected - network error
  ("Network error checking status"), timeout ("Status check timed out"),
  non-2xx ("Failed to check job status: ..."), or body parse failure
  ("Failed to parse status response");
* `completed p`: a 2xx JSON body with `status === "completed"`, `p` its
  (possibly absent) `results` field;
* `error m`: `status === "error"`, `m` the (possibly absent) `error` field;
* `processing`: any other parsed body - the handler treats every non-terminal
  status as "still processing" and keeps looping. -/
inductive StatusResp where
  | reqFailure (msg : String)
  | completed (results : Option Results)
  | error (msg : Option String)
  | processing
  deriving DecidableEq

/-- A status response is terminal when the service reports `completed` or
`error` (spec section 3). -/
def StatusResp.isTerminal : StatusResp → Bool
  | .completed _ => true
  | .error _ => true
  | _ => false

/-- Outcome of the single upload request (the `Promise.race` of lines 220-289
of src/app/home.tsx): either the race rejected (`reqFailure msg`, covering
network error, non-2xx, body parse failure, the stall abort, and the 2-minute
timeout, each with its message), or it resolved to a JSON body whose `success`
and `job_id` fields the handler then inspects. -/
inductive UploadOutcome where
  | reqFailure (msg : String)
  | resolved (success : Bool) (job_id : Option String)
  deriving DecidableEq

/-- The JS errors the handler can throw out of its `try` block, tagged by
origin; `thrownMessage` below recovers the exact message string the source
attaches to each. -/
inductive Thrown where
  | uploadFailed (msg : String)
  | noJobId
  | statusReqFailed (msg : String)
  | processingError (msg : String)
  | missingResults
  | pollTimeout
  deriving DecidableEq

/-- The component state touched by the handler: the `uploading` flag, the
stage indicator `currentStage` (0 none, 1 photo picked, 2 analysing,
3 complete), the stored `results` payload and the banner `resultMessage`
(lines 30-34 of src/app/home.tsx). -/
structure UIState where
  uploading : Bool
  currentStage : Nat
  results : Option Results
  resultMessage : Option String
  deriving DecidableEq

/-- How one call of the handler ended: one of the two early returns, a
successful completion (the `return` at line 346), or a thrown error routed
through the `catch` block. -/
inductive Outcome where
  | earlyNoImage
  | earlyNoApiUrl
  | success (r : Results)
  | failed (e : Thrown)
  deriving DecidableEq

/-- Result of one run of the handler: the final component state, how the run
ended, and how many status requests were issued (the observable the spec calls
the elapsed attempt count). -/
structure RunResult where
  final : UIState
  outcome : Outcome
  statusRequests : Nat
  deriving DecidableEq

/-- Spacing between consecutive status checks, milliseconds: the
`setTimeout(resolve, 1000)` at line 303 of src/app/home.tsx. -/
def pollIntervalMs : Nat := 1000

/-- Upper bound on polling iterations: `const maxAttempts = 300` at line 300
of src/app/home.tsx. -/
def maxAttempts : Nat := 300

/-- Manual timeout on the initial submission, milliseconds: the rejecting
timer of the `Promise.race` at lines 284-288 of src/app/home.tsx. -/
def uploadTimeoutMs : Nat := 120000

/-- Timeout of each individual status request, milliseconds:
`xhr.timeout = 10000` at line 309 of src/app/home.tsx. -/
def statusTimeoutMs : Nat := 10000

/-- Fallback server address returned by `getDefaultApiUrl` (lines 42-51 of
src/app/home.tsx; the same string on every platform). -/
def defaultApiUrl : String := "http://192.168.1.104:8000"

/-- `const API_BASE_URL = apiUrl || getDefaultApiUrl()` (line 57). -/
def apiBaseUrl (apiUrl : String) : String :=
  if apiUrl = "" then defaultApiUrl else apiUrl

/-- JS truthiness of an optional string: `undefined`, `null` and the empty
string are falsy. -/
def truthyStr : Option String → Bool
  | none => false
  | some s => !(s == "")

/-- Substring test (JS `String.prototype.includes` for a non-empty pattern):
`pat` occurs in `s` iff splitting on it yields at least two pieces. -/
def containsSub (s pat : String) : Bool := 2 ≤ (s.splitOn pat).length

/-- `statusData.error || "Processing failed"` (line 348): the service message
is used verbatim when present and non-empty, otherwise the fallback. -/
def serviceErrMsg : Option String → String
  | some em => if em = "" then "Processing failed" else em
  | none => "Processing failed"

/-- Message of the TypeError raised at line 335 when `statusData.results` is
absent and `results.detections` is read; the exact engine wording is
irrelevant to the development, only that the error is thrown and caught. -/
def missingResultsMsg : String :=
  "Cannot read properties of undefined (reading detections)"

/-- The `message` of each thrown `Error`, as the source builds it. -/
def thrownMessage : Thrown → String
  | .uploadFailed msg => msg
  | .noJobId => "Failed to start processing"
  | .statusReqFailed msg => msg
  | .processingError msg => msg
  | .missingResults => missingResultsMsg
  | .pollTimeout => "Processing is taking longer than expected. Please try again."

/-- The comma-separated summary of positive detection counts (lines 338-341):
`Object.entries(detections).filter(([_, c]) => c > 0).map(([i, c]) => i ++ ": " ++ c).join(", ")`. -/
def detectionSummary (ds : List (String × Int)) : String :=
  String.intercalate ", "
    ((ds.filter (fun e => 0 < e.2)).map (fun e => e.1 ++ ": " ++ toString e.2))

/-- The success banner of lines 343-345, including the JS truthiness test on
the summary string (empty string falsy, so no parenthesised part). -/
def successMessage (r : Results) : String :=
  let itemsCount := r.items_classified.getD 0
  let ds := detectionSummary (r.detections.getD [])
  "✅ Success! Detected " ++ toString itemsCount ++ " clothing items. " ++
    (if ds = "" then "" else "(" ++ ds ++ ")")

/-- Advice text of the timeout branch of the catch block (lines 363-365). -/
def timeoutAdviceMsg : String :=
  "⏱️ Processing is taking longer than expected.\n\n" ++
  "The AI pipeline (YOLO + Segmentation) can take 3-5 minutes for high-quality images.\n\n" ++
  "Please try again, or check if the server is still processing your image."

/-- Advice text of the connectivity branch of the catch block (lines 367-372). -/
def connectAdviceMsg (baseUrl : String) : String :=
  "❌ Cannot connect to API server.\n\n" ++
  "Troubleshooting:\n" ++
  "1. Make sure server is running: cd aiwork && python api.py\n" ++
  "2. Check API URL: " ++ baseUrl ++ "\n" ++
  "3. Ensure device & computer are on same WiFi\n" ++
  "4. Try the \"Test Connection\" button in settings"

/-- The catch block of lines 357-381: classify the thrown message into one of
four banner texts.  The `err.name === "AbortError"` disjunct never fires for
the errors this handler throws (they are plain `Error`s and one `TypeError`),
so the classification depends on the message alone. -/
def errorMessage (baseUrl msg : String) : String :=
  if containsSub msg "timeout" || containsSub msg "timed out" then
    timeoutAdviceMsg
  else if containsSub msg "Network request failed" || containsSub msg "fetch" ||
      containsSub msg "Failed to fetch" then
    connectAdviceMsg baseUrl
  else if containsSub msg "aborted" || containsSub msg "Abort" then
    "Request was cancelled. Please try again."
  else
    "Error: " ++ (if msg = "" then "Unknown error occurred" else msg) ++
      "\n\nMake sure the API server is running and try again."

/-- The state updates performed on entry to the main flow (lines 193-196):
`setUploading(true); setResultMessage(null); setResults(null); setCurrentStage(2)`. -/
def setupState (s : UIState) : UIState :=
  { s with uploading := true, resultMessage := none, results := none, currentStage := 2 }

/-- The banner set just before the upload is issued (line 217). -/
def uploadingMsg : String := "🔄 Uploading image... Processing will start shortly."

/-- The banner set once the job identifier is in hand (line 296). -/
def processingMsg : String :=
  "🔄 Processing image through AI pipeline...\n\nThis may take 1-3 minutes. Please wait..."

/-- The component state at the moment the polling loop is entered: the entry
updates of `setupState` followed by the two banner updates of lines 217 and
296 (the uploading banner is immediately overwritten by the processing one). -/
def enteredState (s : UIState) : UIState :=
  { s with
      uploading := true
      results := none
      currentStage := 2
      resultMessage := some processingMsg }

/-- The polling loop of lines 299-356.  `fuel` is the number of remaining
iterations `maxAttempts - attempts` (the guard `attempts < maxAttempts` holds
iff `fuel` is positive); `attempts` is the loop counter of the source, equal to
the number of status requests already issued, so the request answered by
`statuses attempts` is request number `attempts + 1`.  Each iteration waits out
the poll interval, issues one status request, and then:
* a rejected request throws out of the loop (the `await` at line 306 rethrows);
* on `completed` the handler stores the payload and stage 3, then reads
  `results.detections` - a TypeError when the payload is absent - and otherwise
  sets the success banner and returns;
* on `error` it throws the service message (fallback "Processing failed");
* on anything else it increments `attempts` and loops.
Exhausting the budget throws the poll-timeout error (line 356).  The returned
triple is the state after the loop, the normal-or-thrown result, and the total
number of status requests issued. -/
def pollAux (statuses : Nat → StatusResp) :
    Nat → Nat → UIState → UIState × Except Thrown Results × Nat
  | 0, attempts, s => (s, Except.error Thrown.pollTimeout, attempts)
  | fuel + 1, attempts, s =>
    match statuses attempts with
    | .reqFailure msg => (s, Except.error (Thrown.statusReqFailed msg), attempts + 1)
    | .completed p =>
      let s1 := { s with results := p, currentStage := 3 }
      match p with
      | none => (s1, Except.error Thrown.missingResults, attempts + 1)
      | some r =>
        ({ s1 with resultMessage := some (successMessage r) }, Except.ok r, attempts + 1)
    | .error m => (s, Except.error (Thrown.processingError (serviceErrMsg m)), attempts + 1)
    | .processing => pollAux statuses fuel (attempts + 1) s

/-- The body of the `try` block (lines 198-356): set the uploading banner,
await the single upload request; a rejection throws `uploadFailed` with its
message; a resolved body without a truthy `success` and a truthy `job_id`
throws "Failed to start processing" (line 292); otherwise set the processing
banner and enter the polling loop with `attempts = 0`.  The third component
counts the status requests issued (zero when the loop is never entered). -/
def tryBody (upload : UploadOutcome) (statuses : Nat → StatusResp) (s : UIState) :
    UIState × Except Thrown Results × Nat :=
  let s1 := { s with resultMessage := some uploadingMsg }
  match upload with
  | .reqFailure msg => (s1, Except.error (Thrown.uploadFailed msg), 0)
  | .resolved ok jobId =>
    if ok && truthyStr jobId then
      pollAux statuses maxAttempts 0 { s1 with resultMessage := some processingMsg }
    else (s1, Except.error Thrown.noJobId, 0)

/-- The catch and finally blocks (lines 357-384): a normal return only clears
the uploading flag; a thrown error additionally sets the classified banner and
resets the stage indicator to 1. -/
def finishRun (baseUrl : String) :
    UIState × Except Thrown Results × Nat → RunResult
  | (s2, Except.ok r, n) => ⟨{ s2 with uploading := false }, Outcome.success r, n⟩
  | (s2, Except.error e, n) =>
    ⟨{ s2 with
        resultMessage := some (errorMessage baseUrl (thrownMessage e))
        currentStage := 1
        uploading := false }, Outcome.failed e, n⟩

/-- The whole of `handleRunPipeline` (lines 178-385).  The two guards of lines
179-191 early-return with JS truthiness tests on `imageUri` and `apiUrl` (the
first sets a banner, the second only shows an alert); otherwise the entry
updates of `setupState` run and the try body executes under catch+finally. -/
def runPipeline (imageUri : Option String) (apiUrl : String) (upload : UploadOutcome)
    (statuses : Nat → StatusResp) (s : UIState) : RunResult :=
  if truthyStr imageUri then
    if apiUrl = "" then ⟨s, Outcome.earlyNoApiUrl, 0⟩
    else finishRun (apiBaseUrl apiUrl) (tryBody upload statuses (setupState s))
  else
    ⟨{ s with resultMessage := some "Please add a photo first." }, Outcome.earlyNoImage, 0⟩

/-- The upload phase failed to yield a job: either the request itself failed,
or the resolved body lacked a truthy `success` flag or job identifier. -/
def uploadBad : UploadOutcome → Bool
  | .reqFailure _ => true
  | .resolved ok jobId => !(ok && truthyStr jobId)

/-- The error the handler throws for a bad upload phase: the rejection message
for a failed request, "Failed to start processing" for a body without a job. -/
def uploadThrown : UploadOutcome → Thrown
  | .reqFailure msg => Thrown.uploadFailed msg
  | .resolved _ _ => Thrown.noJobId

/-- The initial component state (lines 30-34): not uploading, stage 0, no
results, no banner. -/
def s0 : UIState :=
  { uploading := false, currentStage := 0, results := none, resultMessage := none }

/-- A concrete results payload used to instantiate theorems. -/
def resEx : Results :=
  { detections := some [("shirt", 2), ("pants", 1)], items_classified := some 3 }

/-! ## Helper lemmas about the poll loop -/

/-- Unfolding: with fuel left, a rejected status request stops the loop after
issuing request number `a + 1`. -/
theorem pollAux_succ_reqFailure (statuses : Nat → StatusResp) (fuel a : Nat) (s : UIState)
    (msg : String) (h : statuses a = .reqFailure msg) :
    pollAux statuses (fuel + 1) a s =
      (s, Except.error (Thrown.statusReqFailed msg), a + 1) := by
  simp [pollAux, h]

/-- Unfolding: with fuel left, a `completed` response with a payload stores the
payload, moves to stage 3, sets the success banner and returns normally. -/
theorem pollAux_succ_completed_some (statuses : Nat → StatusResp) (fuel a : Nat) (s : UIState)
    (r : Results) (h : statuses a = .completed (some r)) :
    pollAux statuses (fuel + 1) a s =
      ({ s with
          results := some r
          currentStage := 3
          resultMessage := some (successMessage r) }, Except.ok r, a + 1) := by
  simp [pollAux, h]

/-- Unfolding: with fuel left, a `completed` response without a payload stores
the missing payload and stage 3, then throws while reading the payload. -/
theorem pollAux_succ_completed_none (statuses : Nat → StatusResp) (fuel a : Nat) (s : UIState)
    (h : statuses a = .completed none) :
    pollAux statuses (fuel + 1) a s =
      ({ s with results := none, currentStage := 3 },
        Except.error Thrown.missingResults, a + 1) := by
  simp [pollAux, h]

/-- Unfolding: with fuel left, an `error` response throws the service message. -/
theorem pollAux_succ_error (statuses : Nat → StatusResp) (fuel a : Nat) (s : UIState)
    (m : Option String) (h : statuses a = .error m) :
    pollAux statuses (fuel + 1) a s =
      (s, Except.error (Thrown.processingError (serviceErrMsg m)), a + 1) := by
  simp [pollAux, h]

/-- Unfolding: with fuel left, a `processing` response consumes one attempt and
loops. -/
theorem pollAux_succ_processing (statuses : Nat → StatusResp) (fuel a : Nat) (s : UIState)
    (h : statuses a = .processing) :
    pollAux statuses (fuel + 1) a s = pollAux statuses fuel (a + 1) s := by
  simp [pollAux, h]

/-- A run of `k` consecutive `processing` observations advances the loop by
`k` attempts without changing the state. -/
theorem pollAux_skip (statuses : Nat → StatusResp) (s : UIState) :
    ∀ k fuel a, (∀ i, i < k → statuses (a + i) = .processing) →
      pollAux statuses (fuel + k) a s = pollAux statuses fuel (a + k) s := by
  intro k
  induction k with
  | zero => intro fuel a _h; rfl
  | succ k ih =>
    intro fuel a h
    have h0 : statuses a = .processing := by simpa using h 0 (Nat.succ_pos k)
    have e1 : fuel + (k + 1) = (fuel + k) + 1 := by omega
    rw [e1, pollAux_succ_processing statuses (fuel + k) a s h0]
    have h2 : ∀ i, i < k → statuses (a + 1 + i) = .processing := by
      intro i hi
      have hx := h (i + 1) (by omega)
      have e2 : a + (i + 1) = a + 1 + i := by omega
      rwa [e2] at hx
    rw [ih fuel (a + 1) h2]
    have e3 : a + 1 + k = a + (k + 1) := by omega
    rw [e3]

/-- The catch+finally translation preserves the status-request count. -/
theorem finishRun_requests (b : String) (t : UIState × Except Thrown Results × Nat) :
    (finishRun b t).statusRequests = t.2.2 := by
  obtain ⟨s2, exc, n⟩ := t
  cases exc <;> rfl

/-- The finally block always clears the uploading flag. -/
theorem finishRun_uploading (b : String) (t : UIState × Except Thrown Results × Nat) :
    (finishRun b t).final.uploading = false := by
  obtain ⟨s2, exc, n⟩ := t
  cases exc <;> rfl

/-- With a photo, a non-empty API URL, and an upload reply carrying a job
identifier, the run is the poll loop over the entered state, wrapped in
catch+finally. -/
theorem runPipeline_good (img url jid : String) (upload : UploadOutcome)
    (statuses : Nat → StatusResp) (s : UIState)
    (himg : img ≠ "") (hurl : url ≠ "") (hjid : jid ≠ "")
    (hup : upload = .resolved true (some jid)) :
    runPipeline (some img) url upload statuses s =
      finishRun (apiBaseUrl url)
        (pollAux statuses maxAttempts 0 (enteredState s)) := by
  subst hup
  have htr : truthyStr (some img) = true := by simp [truthyStr, himg]
  have hjd : truthyStr (some jid) = true := by simp [truthyStr, hjid]
  simp [runPipeline, htr, hurl, tryBody, hjd, setupState, enteredState]

/-- With a photo and a non-empty API URL, a run whose first `k` status
responses are `processing` reduces to the poll loop started at attempt `k`
with `maxAttempts - k` iterations of budget left. -/
theorem runPipeline_after_processing (img url jid : String)
    (statuses : Nat → StatusResp) (s : UIState) (k : Nat)
    (himg : img ≠ "") (hurl : url ≠ "") (hjid : jid ≠ "")
    (hk : k ≤ maxAttempts) (hb : ∀ i, i < k → statuses i = .processing) :
    runPipeline (some img) url (.resolved true (some jid)) statuses s =
      finishRun (apiBaseUrl url)
        (pollAux statuses (maxAttempts - k) k (enteredState s)) := by
  rw [runPipeline_good img url jid _ statuses s himg hurl hjid rfl]
  have hskip := pollAux_skip statuses (enteredState s) k (maxAttempts - k) 0
    (by intro i hi; simpa using hb i hi)
  rw [show maxAttempts - k + k = maxAttempts from by omega] at hskip
  rw [hskip, Nat.zero_add]

/-! ## Claim theorems -/

/-- Claim C1: with the 300-attempt budget of the code, if every status request
returns `processing`, the poll phase issues exactly `maxAttempts` status
requests - no more and no fewer - and then fails with the poll-timeout error. -/
theorem c1_all_processing_poll_timeout (img url jid : String)
    (statuses : Nat → StatusResp) (s : UIState)
    (himg : img ≠ "") (hurl : url ≠ "") (hjid : jid ≠ "")
    (hall : ∀ i, i < maxAttempts → statuses i = .processing) :
    (runPipeline (some img) url (.resolved true (some jid)) statuses s).statusRequests =
      maxAttempts ∧
    (runPipeline (some img) url (.resolved true (some jid)) statuses s).outcome =
      .failed .pollTimeout ∧
    maxAttempts = 300 := by
  have h := runPipeline_after_processing img url jid statuses s maxAttempts
    himg hurl hjid (le_refl _) hall
  rw [Nat.sub_self] at h
  rw [h]
  exact ⟨rfl, rfl, rfl⟩

/-- Witness for C1: a service that never leaves `processing` yields the
poll-timeout failure after exactly 300 status requests. -/
theorem c1_witness :
    (runPipeline (some "outfit.jpg") "http://192.168.1.104:8000"
      (.resolved true (some "job-1")) (fun _ => .processing) s0).statusRequests =
        maxAttempts ∧
    (runPipeline (some "outfit.jpg") "http://192.168.1.104:8000"
      (.resolved true (some "job-1")) (fun _ => .processing) s0).outcome =
        .failed .pollTimeout ∧
    maxAttempts = 300 :=
  c1_all_processing_poll_timeout "outfit.jpg" "http://192.168.1.104:8000" "job-1"
    (fun _ => .processing) s0 (by decide) (by decide) (by decide) (fun _ _ => rfl)

/-- Claim C2 counterexample: the claim says a failed status request is treated
as an inconclusive `processing` observation and the loop proceeds to the next
iteration.  In the code the rejected `await` throws out of the loop: with the
very first status request timing out (and the service otherwise always
`processing`), the run stops after exactly one status request - far below the
300-attempt budget - and fails with the status-check error. -/
theorem c2_counterexample :
    (runPipeline (some "outfit.jpg") "http://192.168.1.104:8000"
      (.resolved true (some "job-1"))
      (fun i => if i = 0 then .reqFailure "Status check timed out" else .processing)
      s0).statusRequests = 1 ∧
    (runPipeline (some "outfit.jpg") "http://192.168.1.104:8000"
      (.resolved true (some "job-1"))
      (fun i => if i = 0 then .reqFailure "Status check timed out" else .processing)
      s0).outcome = .failed (.statusReqFailed "Status check timed out") ∧
    1 < maxAttempts :=
  ⟨rfl, rfl, by decide⟩

/-- Claim C2 as amended: a status request that times out or fails consumes one
attempt but terminates the entire run: the error propagates out of the loop,
no further status request is issued, and the catch block surfaces it (stage
reset to 1, uploading cleared). -/
theorem c2_status_failure_aborts_run (img url jid msg : String)
    (statuses : Nat → StatusResp) (s : UIState) (k : Nat)
    (himg : img ≠ "") (hurl : url ≠ "") (hjid : jid ≠ "")
    (hk : k < maxAttempts) (hb : ∀ i, i < k → statuses i = .processing)
    (hf : statuses k = .reqFailure msg) :
    (runPipeline (some img) url (.resolved true (some jid)) statuses s).outcome =
      .failed (.statusReqFailed msg) ∧
    (runPipeline (some img) url (.resolved true (some jid)) statuses s).statusRequests =
      k + 1 ∧
    (runPipeline (some img) url (.resolved true (some jid)) statuses s).final.currentStage = 1 ∧
    (runPipeline (some img) url (.resolved true (some jid)) statuses s).final.uploading =
      false := by
  have h := runPipeline_after_processing img url jid statuses s k himg hurl hjid
    (le_of_lt hk) hb
  rw [show maxAttempts - k = (maxAttempts - k - 1) + 1 from by omega] at h
  rw [pollAux_succ_reqFailure statuses _ k (enteredState s) msg hf] at h
  rw [h]
  exact ⟨rfl, rfl, rfl, rfl⟩

/-- Witness for the amended C2: first check `processing`, second check a
network failure; the run aborts after two status requests. -/
theorem c2_witness :
    (runPipeline (some "outfit.jpg") "http://192.168.1.104:8000"
      (.resolved true (some "job-1"))
      (fun i => if i = 1 then .reqFailure "Network error checking status" else .processing)
      s0).outcome = .failed (.statusReqFailed "Network error checking status") ∧
    (runPipeline (some "outfit.jpg") "http://192.168.1.104:8000"
      (.resolved true (some "job-1"))
      (fun i => if i = 1 then .reqFailure "Network error checking status" else .processing)
      s0).statusRequests = 1 + 1 ∧
    (runPipeline (some "outfit.jpg") "http://192.168.1.104:8000"
      (.resolved true (some "job-1"))
      (fun i => if i = 1 then .reqFailure "Network error checking status" else .processing)
      s0).final.currentStage = 1 ∧
    (runPipeline (some "outfit.jpg") "http://192.168.1.104:8000"
      (.resolved true (some "job-1"))
      (fun i => if i = 1 then .reqFailure "Network error checking status" else .processing)
      s0).final.uploading = false :=
  c2_status_failure_aborts_run "outfit.jpg" "http://192.168.1.104:8000" "job-1"
    "Network error checking status"
    (fun i => if i = 1 then .reqFailure "Network error checking status" else .processing)
    s0 1 (by decide) (by decide) (by decide) (by decide) (by decide) (by decide)

/-- Claim C3 counterexample: the claim says the success result carries the
elapsed attempt count.  Two runs that complete with the same payload after 1
and after 3 status checks deliver bit-identical final state and outcome, so
the delivered result carries no attempt count at all. -/
theorem c3_counterexample :
    (runPipeline (some "outfit.jpg") "http://192.168.1.104:8000"
      (.resolved true (some "job-1"))
      (fun i => if i = 0 then .completed (some resEx) else .processing) s0).statusRequests
      = 1 ∧
    (runPipeline (some "outfit.jpg") "http://192.168.1.104:8000"
      (.resolved true (some "job-1"))
      (fun i => if i = 2 then .completed (some resEx) else .processing) s0).statusRequests
      = 3 ∧
    (runPipeline (some "outfit.jpg") "http://192.168.1.104:8000"
      (.resolved true (some "job-1"))
      (fun i => if i = 0 then .completed (some resEx) else .processing) s0).final =
    (runPipeline (some "outfit.jpg") "http://192.168.1.104:8000"
      (.resolved true (some "job-1"))
      (fun i => if i = 2 then .completed (some resEx) else .processing) s0).final ∧
    (runPipeline (some "outfit.jpg") "http://192.168.1.104:8000"
      (.resolved true (some "job-1"))
      (fun i => if i = 0 then .completed (some resEx) else .processing) s0).outcome =
    (runPipeline (some "outfit.jpg") "http://192.168.1.104:8000"
      (.resolved true (some "job-1"))
      (fun i => if i = 2 then .completed (some resEx) else .processing) s0).outcome :=
  ⟨rfl, rfl, rfl, rfl⟩

/-- Claim C3 as amended: on success the run surfaces the results payload (the
stored state and the success banner) but no attempt count; when the first
status check returns `completed` with a payload, exactly one status request
is issued. -/
theorem c3_first_check_completed (img url jid : String) (r : Results)
    (statuses : Nat → StatusResp) (s : UIState)
    (himg : img ≠ "") (hurl : url ≠ "") (hjid : jid ≠ "")
    (h0 : statuses 0 = .completed (some r)) :
    (runPipeline (some img) url (.resolved true (some jid)) statuses s).outcome =
      .success r ∧
    (runPipeline (some img) url (.resolved true (some jid)) statuses s).final.results =
      some r ∧
    (runPipeline (some img) url (.resolved true (some jid)) statuses s).final.resultMessage =
      some (successMessage r) ∧
    (runPipeline (some img) url (.resolved true (some jid)) statuses s).statusRequests =
      1 := by
  have h := runPipeline_good img url jid _ statuses s himg hurl hjid rfl
  rw [show maxAttempts = (maxAttempts - 1) + 1 from by
    have hpos : 0 < maxAttempts := by decide
    omega] at h
  rw [pollAux_succ_completed_some statuses _ 0 (enteredState s) r h0] at h
  rw [h]
  exact ⟨rfl, rfl, rfl, rfl⟩

/-- Witness for the amended C3: a service completing on the first check. -/
theorem c3_witness :
    (runPipeline (some "outfit.jpg") "http://192.168.1.104:8000"
      (.resolved true (some "job-1")) (fun _ => .completed (some resEx)) s0).outcome =
      .success resEx ∧
    (runPipeline (some "outfit.jpg") "http://192.168.1.104:8000"
      (.resolved true (some "job-1")) (fun _ => .completed (some resEx)) s0).final.results =
      some resEx ∧
    (runPipeline (some "outfit.jpg") "http://192.168.1.104:8000"
      (.resolved true (some "job-1"))
      (fun _ => .completed (some resEx)) s0).final.resultMessage =
      some (successMessage resEx) ∧
    (runPipeline (some "outfit.jpg") "http://192.168.1.104:8000"
      (.resolved true (some "job-1"))
      (fun _ => .completed (some resEx)) s0).statusRequests = 1 :=
  c3_first_check_completed "outfit.jpg" "http://192.168.1.104:8000" "job-1" resEx
    (fun _ => .completed (some resEx)) s0 (by decide) (by decide) (by decide) rfl

/-- Claim C4: once a status request observes a terminal status (`completed` or
`error`) at check `k + 1`, no further status request is issued - the total is
exactly `k + 1`; on `completed` with a payload the run returns that payload as
its success outcome, and on `error` it stops with the processing failure. -/
theorem c4_no_poll_after_terminal (img url jid : String)
    (statuses : Nat → StatusResp) (s : UIState) (k : Nat)
    (himg : img ≠ "") (hurl : url ≠ "") (hjid : jid ≠ "")
    (hk : k < maxAttempts) (hb : ∀ i, i < k → statuses i = .processing)
    (ht : (statuses k).isTerminal = true) :
    (runPipeline (some img) url (.resolved true (some jid)) statuses s).statusRequests =
      k + 1 ∧
    (∀ r, statuses k = .completed (some r) →
      (runPipeline (some img) url (.resolved true (some jid)) statuses s).outcome =
        .success r) ∧
    (∀ m, statuses k = .error m →
      (runPipeline (some img) url (.resolved true (some jid)) statuses s).outcome =
        .failed (.processingError (serviceErrMsg m))) := by
  have h := runPipeline_after_processing img url jid statuses s k himg hurl hjid
    (le_of_lt hk) hb
  rw [show maxAttempts - k = (maxAttempts - k - 1) + 1 from by omega] at h
  cases hsk : statuses k with
  | reqFailure msg => rw [hsk] at ht; simp [StatusResp.isTerminal] at ht
  | processing => rw [hsk] at ht; simp [StatusResp.isTerminal] at ht
  | completed p =>
    cases p with
    | none =>
      rw [pollAux_succ_completed_none statuses _ k (enteredState s) hsk] at h
      rw [h]
      refine ⟨rfl, ?_, ?_⟩
      · intro r hr; simp at hr
      · intro m hm; simp at hm
    | some r0 =>
      rw [pollAux_succ_completed_some statuses _ k (enteredState s) r0 hsk] at h
      rw [h]
      refine ⟨rfl, ?_, ?_⟩
      · intro r hr
        simp only [StatusResp.completed.injEq, Option.some.injEq] at hr
        subst hr
        rfl
      · intro m hm; simp at hm
  | error m0 =>
    rw [pollAux_succ_error statuses _ k (enteredState s) m0 hsk] at h
    rw [h]
    refine ⟨rfl, ?_, ?_⟩
    · intro r hr; simp at hr
    · intro m hm
      simp only [StatusResp.error.injEq] at hm
      subst hm
      rfl

/-- Witness for C4: first check `processing`, second check `completed` with a
payload; exactly two status requests are issued and the payload is returned. -/
theorem c4_witness :
    (runPipeline (some "outfit.jpg") "http://192.168.1.104:8000"
      (.resolved true (some "job-1"))
      (fun i => if i = 1 then .completed (some resEx) else .processing)
      s0).statusRequests = 1 + 1 ∧
    (∀ r, (fun i => if i = 1 then StatusResp.completed (some resEx) else .processing) 1 =
        .completed (some r) →
      (runPipeline (some "outfit.jpg") "http://192.168.1.104:8000"
        (.resolved true (some "job-1"))
        (fun i => if i = 1 then .completed (some resEx) else .processing)
        s0).outcome = .success r) ∧
    (∀ m, (fun i => if i = 1 then StatusResp.completed (some resEx) else .processing) 1 =
        .error m →
      (runPipeline (some "outfit.jpg") "http://192.168.1.104:8000"
        (.resolved true (some "job-1"))
        (fun i => if i = 1 then .completed (some resEx) else .processing)
        s0).outcome = .failed (.processingError (serviceErrMsg m))) :=
  c4_no_poll_after_terminal "outfit.jpg" "http://192.168.1.104:8000" "job-1"
    (fun i => if i = 1 then .completed (some resEx) else .processing)
    s0 1 (by decide) (by decide) (by decide) (by decide) (by decide) rfl

/-- Claim C5: if the first `K - 1` status checks observe `processing` and the
`K`-th (1 ≤ K ≤ maxAttempts) reports `error` with a non-empty service message,
the loop stops at attempt `K` - exactly `K` status requests - and fails with
the processing error carrying the service message verbatim. -/
theorem c5_error_at_K_stops (img url jid em : String)
    (statuses : Nat → StatusResp) (s : UIState) (K : Nat)
    (himg : img ≠ "") (hurl : url ≠ "") (hjid : jid ≠ "")
    (hK1 : 1 ≤ K) (hK2 : K ≤ maxAttempts)
    (hb : ∀ i, i < K - 1 → statuses i = .processing)
    (hs : statuses (K - 1) = .error (some em)) (hem : em ≠ "") :
    (runPipeline (some img) url (.resolved true (some jid)) statuses s).outcome =
      .failed (.processingError em) ∧
    (runPipeline (some img) url (.resolved true (some jid)) statuses s).statusRequests =
      K := by
  have h := runPipeline_after_processing img url jid statuses s (K - 1) himg hurl hjid
    (by omega) hb
  rw [show maxAttempts - (K - 1) = (maxAttempts - (K - 1) - 1) + 1 from by omega] at h
  rw [pollAux_succ_error statuses _ (K - 1) (enteredState s) (some em) hs] at h
  have hmsg : serviceErrMsg (some em) = em := by simp [serviceErrMsg, hem]
  rw [hmsg] at h
  rw [h]
  refine ⟨rfl, ?_⟩
  rw [finishRun_requests]
  show K - 1 + 1 = K
  omega

/-- Witness for C5: `processing` once, then `error` on the second check with a
service message; the run stops after exactly two status requests and carries
the message verbatim. -/
theorem c5_witness :
    (runPipeline (some "outfit.jpg") "http://192.168.1.104:8000"
      (.resolved true (some "job-1"))
      (fun i => if i = 1 then .error (some "No clothing items detected") else .processing)
      s0).outcome = .failed (.processingError "No clothing items detected") ∧
    (runPipeline (some "outfit.jpg") "http://192.168.1.104:8000"
      (.resolved true (some "job-1"))
      (fun i => if i = 1 then .error (some "No clothing items detected") else .processing)
      s0).statusRequests = 2 :=
  c5_error_at_K_stops "outfit.jpg" "http://192.168.1.104:8000" "job-1"
    "No clothing items detected"
    (fun i => if i = 1 then .error (some "No clothing items detected") else .processing)
    s0 2 (by decide) (by decide) (by decide) (by decide) (by decide) (by decide) rfl
    (by decide)

/-- Claim C6: if the single submission request fails, or resolves without a
truthy `success` flag and job identifier, the run fails with the upload-phase
error (the rejection message, or "Failed to start processing"), is never a
success, and issues zero status requests - the polling loop is never entered. -/
theorem c6_upload_failure_no_polling (img url : String) (upload : UploadOutcome)
    (statuses : Nat → StatusResp) (s : UIState)
    (himg : img ≠ "") (hurl : url ≠ "") (hbad : uploadBad upload = true) :
    (runPipeline (some img) url upload statuses s).statusRequests = 0 ∧
    (runPipeline (some img) url upload statuses s).outcome =
      .failed (uploadThrown upload) ∧
    (∀ r, (runPipeline (some img) url upload statuses s).outcome ≠ .success r) := by
  have htr : truthyStr (some img) = true := by simp [truthyStr, himg]
  cases upload with
  | reqFailure msg =>
    refine ⟨?_, ?_, ?_⟩ <;>
      simp [runPipeline, htr, hurl, tryBody, finishRun, uploadThrown]
  | resolved ok jobId =>
    have hg : (ok && truthyStr jobId) = false := by
      rcases (by simpa [uploadBad] using hbad : ok = false ∨ truthyStr jobId = false) with
        h1 | h1 <;> simp [h1]
    refine ⟨?_, ?_, ?_⟩ <;>
      simp [runPipeline, htr, hurl, tryBody, hg, finishRun, uploadThrown]

/-- Witness for C6: a resolved submission whose body carries `success: true`
but no job identifier; the run fails in the upload phase with zero status
requests. -/
theorem c6_witness :
    (runPipeline (some "outfit.jpg") "http://192.168.1.104:8000"
      (.resolved true none) (fun _ => .processing) s0).statusRequests = 0 ∧
    (runPipeline (some "outfit.jpg") "http://192.168.1.104:8000"
      (.resolved true none) (fun _ => .processing) s0).outcome =
      .failed (uploadThrown (.resolved true none)) ∧
    (∀ r, (runPipeline (some "outfit.jpg") "http://192.168.1.104:8000"
      (.resolved true none) (fun _ => .processing) s0).outcome ≠ .success r) :=
  c6_upload_failure_no_polling "outfit.jpg" "http://192.168.1.104:8000"
    (.resolved true none) (fun _ => .processing) s0 (by decide) (by decide) (by decide)

/-- Claim C8: the constants in effect (the handler takes no configuration, so
they always apply): 1000 ms between consecutive status checks, 300 polling
iterations at most, a 120000 ms abort on the initial submission, and a
separate, much shorter 10000 ms timeout on each individual status request. -/
theorem c8_default_config_constants :
    pollIntervalMs = 1000 ∧ maxAttempts = 300 ∧ uploadTimeoutMs = 120000 ∧
    statusTimeoutMs = 10000 ∧ statusTimeoutMs < uploadTimeoutMs :=
  ⟨rfl, rfl, rfl, rfl, by decide⟩

/-- Claim C9: every terminating execution of the handler - the two early
returns, success, and every thrown error - ends with the `uploading` flag
false (given it was false on entry, which the disabled button guarantees);
the flag is set true by the entry updates, so it is true exactly while the
submission/polling flow is in progress. -/
theorem c9_uploading_false_at_termination (imageUri : Option String) (apiUrl : String)
    (upload : UploadOutcome) (statuses : Nat → StatusResp) (s : UIState)
    (h : s.uploading = false) :
    (runPipeline imageUri apiUrl upload statuses s).final.uploading = false ∧
    (setupState s).uploading = true := by
  refine ⟨?_, rfl⟩
  cases htr : truthyStr imageUri with
  | false => simp [runPipeline, htr, h]
  | true =>
    by_cases hurl : apiUrl = ""
    · simp [runPipeline, htr, hurl, h]
    · simp [runPipeline, htr, hurl, finishRun_uploading]

/-- Witness for C9: a full successful run from the initial state ends with the
flag cleared, and the entry updates set it. -/
theorem c9_witness :
    (runPipeline (some "outfit.jpg") "http://192.168.1.104:8000"
      (.resolved true (some "job-1"))
      (fun _ => .completed (some resEx)) s0).final.uploading = false ∧
    (setupState s0).uploading = true :=
  c9_uploading_false_at_termination (some "outfit.jpg") "http://192.168.1.104:8000"
    (.resolved true (some "job-1")) (fun _ => .completed (some resEx)) s0 rfl

/-- Claim C10: a status response reporting `completed` without a `results`
payload does not produce a success outcome: the read of the missing payload
throws, the catch block surfaces a failure banner, the stage indicator ends at
1 (not at the completed stage set just before the throw), and polling stops
there. -/
theorem c10_completed_without_results (img url jid : String)
    (statuses : Nat → StatusResp) (s : UIState) (k : Nat)
    (himg : img ≠ "") (hurl : url ≠ "") (hjid : jid ≠ "")
    (hk : k < maxAttempts) (hb : ∀ i, i < k → statuses i = .processing)
    (hc : statuses k = .completed none) :
    (runPipeline (some img) url (.resolved true (some jid)) statuses s).outcome =
      .failed .missingResults ∧
    (∀ r, (runPipeline (some img) url (.resolved true (some jid)) statuses s).outcome ≠
      .success r) ∧
    (runPipeline (some img) url (.resolved true (some jid)) statuses s).statusRequests =
      k + 1 ∧
    (runPipeline (some img) url (.resolved true (some jid)) statuses s).final.currentStage =
      1 ∧
    (runPipeline (some img) url (.resolved true (some jid)) statuses s).final.results =
      none ∧
    (runPipeline (some img) url (.resolved true (some jid)) statuses s).final.resultMessage =
      some (errorMessage (apiBaseUrl url) missingResultsMsg) := by
  have h := runPipeline_after_processing img url jid statuses s k himg hurl hjid
    (le_of_lt hk) hb
  rw [show maxAttempts - k = (maxAttempts - k - 1) + 1 from by omega] at h
  rw [pollAux_succ_completed_none statuses _ k (enteredState s) hc] at h
  rw [h]
  refine ⟨rfl, ?_, rfl, rfl, rfl, rfl⟩
  intro r hr
  simp [finishRun] at hr

/-- Witness for C10: the first status check reports `completed` with no
payload; the run fails, makes exactly one status request, and ends at stage 1
with the failure banner. -/
theorem c10_witness :
    (runPipeline (some "outfit.jpg") "http://192.168.1.104:8000"
      (.resolved true (some "job-1")) (fun _ => .completed none) s0).outcome =
      .failed .missingResults ∧
    (∀ r, (runPipeline (some "outfit.jpg") "http://192.168.1.104:8000"
      (.resolved true (some "job-1")) (fun _ => .completed none) s0).outcome ≠
      .success r) ∧
    (runPipeline (some "outfit.jpg") "http://192.168.1.104:8000"
      (.resolved true (some "job-1")) (fun _ => .completed none) s0).statusRequests =
      0 + 1 ∧
    (runPipeline (some "outfit.jpg") "http://192.168.1.104:8000"
      (.resolved true (some "job-1"))
      (fun _ => .completed none) s0).final.currentStage = 1 ∧
    (runPipeline (some "outfit.jpg") "http://192.168.1.104:8000"
      (.resolved true (some "job-1")) (fun _ => .completed none) s0).final.results =
      none ∧
    (runPipeline (some "outfit.jpg") "http://192.168.1.104:8000"
      (.resolved true (some "job-1"))
      (fun _ => .completed none) s0).final.resultMessage =
      some (errorMessage (apiBaseUrl "http://192.168.1.104:8000") missingResultsMsg) :=
  c10_completed_without_results "outfit.jpg" "http://192.168.1.104:8000" "job-1"
    (fun _ => .completed none) s0 0 (by decide) (by decide) (by decide) (by decide)
    (by decide) rfl
